import Mathlib

/-!
Verification development for the dataserv client (`dataserv_client/api.py`).

The Python source is shallowly embedded: pure decisions become Lean
functions over `Nat`/`String`, the client's mutable fields become an
explicit state record, exceptions become `Except`/sum results, and the
two unbounded loops (`poll`, the retry loop of the messaging layer) are
run under an explicit fuel parameter, with fuel exhaustion standing for
"still running".  Modules of the repository that are not part of the
given source tree (`common`, `messaging`, `builder`, `exceptions`,
`deserialize`) are modelled from the specification where a claim needs
them; each such definition carries a doc comment starting with
`Modelled from the spec:`.
-/

/-! ## Shard-generation checkpoint callback (`_on_generate_shard`, api.py lines 32-45)

The callback receives the current height and decides whether to report it
to the server.  `common.SHARD_SIZE` is a constant of the missing `common`
module, so the shard size is carried as an explicit parameter here.
Python's `int(client.max_size / common.SHARD_SIZE)` truncates towards
zero, which on non-negative integers is floor division, i.e. `Nat` `/`.
-/

/-- `first = cur_height == 1` (api.py line 39). -/
def shardFirst (curHeight : Nat) : Bool :=
  curHeight == 1

/-- `set_height = (cur_height % int(set_height_interval)) == 0` (api.py line 40). -/
def shardSetHeight (interval curHeight : Nat) : Bool :=
  curHeight % interval == 0

/-- `last = int(client.max_size / common.SHARD_SIZE) == cur_height` (api.py line 41):
floor division of the capacity by the shard size. -/
def shardLast (maxSize shardSize curHeight : Nat) : Bool :=
  maxSize / shardSize == curHeight

/-- The callback reports `cur_height` to the server iff `first or set_height or last`
(api.py line 43). -/
def onGenerateShardReports (maxSize shardSize interval curHeight : Nat) : Bool :=
  shardFirst curHeight || shardSetHeight interval curHeight ||
    shardLast maxSize shardSize curHeight

/-- Modelled from the spec: the `builder` module is not under the given source
tree; the spec derives `total_height = ceil(max_size / shard_size)` for the
number of heights a build iterates over (`1..total_height`). -/
def totalHeight (maxSize shardSize : Nat) : Nat :=
  (maxSize + shardSize - 1) / shardSize

/-- Ceiling division collapses to floor division exactly on multiples. -/
lemma totalHeight_eq_div (maxSize shardSize : Nat) (hs : 0 < shardSize)
    (hdvd : shardSize ∣ maxSize) : totalHeight maxSize shardSize = maxSize / shardSize := by
  obtain ⟨k, rfl⟩ := hdvd
  unfold totalHeight
  have h1 : shardSize * k + shardSize - 1 = shardSize * k + (shardSize - 1) := by omega
  rw [h1, Nat.mul_add_div hs, Nat.mul_div_cancel_left _ hs,
    Nat.div_eq_of_lt (by omega), Nat.add_zero]

/-- C1, counterexample: with `max_size = 3`, `shard_size = 2`, interval `5`, the
build's final height is `totalHeight 3 2 = 2`, yet the callback does not report
height 2: the claimed "reports exactly at 1, multiples of N, and the last
height" fails because the code compares against `3 / 2 = 1`, not the ceiling. -/
theorem c1_counterexample_last_height_missed :
    totalHeight 3 2 = 2 ∧ onGenerateShardReports 3 2 5 2 = false := by decide

/-- C1 (amended): when the capacity is an exact multiple of the shard size, the
callback reports a height exactly when it is 1, a multiple of the interval, or
the last height `totalHeight`; in particular with `total_height = 10` and
interval 4 the reported heights among `1..10` are exactly `[1, 4, 8, 10]`, each
once and in increasing order. -/
theorem c1_checkpoint_policy_on_exact_multiples
    (maxSize shardSize interval h : Nat) (hs : 0 < shardSize)
    (hdvd : shardSize ∣ maxSize) :
    (onGenerateShardReports maxSize shardSize interval h = true ↔
      h = 1 ∨ h % interval = 0 ∨ h = totalHeight maxSize shardSize) ∧
    (List.range' 1 10).filter (onGenerateShardReports 10 1 4) = [1, 4, 8, 10] ∧
    ((List.range' 1 10).filter (onGenerateShardReports 10 1 4)).Nodup ∧
    ((List.range' 1 10).filter (onGenerateShardReports 10 1 4)).Pairwise (· < ·) := by
  refine ⟨?_, by decide, by decide, by decide⟩
  rw [onGenerateShardReports, shardFirst, shardSetHeight, shardLast,
    totalHeight_eq_div maxSize shardSize hs hdvd]
  generalize maxSize / shardSize = q
  generalize h % interval = r
  simp only [Bool.or_eq_true, beq_iff_eq]
  omega

/-- C1 witness: the amended policy evaluated at the concrete instance of the
claim (`max_size = 10`, `shard_size = 1`, interval 4, height 10). -/
theorem c1_checkpoint_policy_spot : onGenerateShardReports 10 1 4 10 = true :=
  (c1_checkpoint_policy_on_exact_multiples 10 1 4 10 (by decide) ⟨10, rfl⟩).1.mpr
    (Or.inr (Or.inr (by decide)))

/-- C2, counterexample: with `max_size = 3`, `shard_size = 2`, the spec's
`total_height = ceil(3/2) = 2`, but the callback's `last` condition holds at
height `3 / 2 = 1` and fails at height 2, so the final height of the build
(with interval 3) triggers no report at all. -/
theorem c2_counterexample_ceil_vs_floor :
    totalHeight 3 2 = 2 ∧ shardLast 3 2 2 = false ∧ shardLast 3 2 1 = true ∧
      onGenerateShardReports 3 2 3 2 = false := by decide

/-- C2 (amended): the `last` condition of the checkpoint callback holds exactly
at height `max_size / shard_size` (floor division); when `shard_size` divides
`max_size` that height coincides with `total_height = ceil(max_size/shard_size)`
and the final height of the build always triggers a report. -/
theorem c2_last_condition_at_floor (maxSize shardSize interval h : Nat)
    (hs : 0 < shardSize) :
    (shardLast maxSize shardSize h = true ↔ h = maxSize / shardSize) ∧
    (shardSize ∣ maxSize →
      maxSize / shardSize = totalHeight maxSize shardSize ∧
      onGenerateShardReports maxSize shardSize interval
        (totalHeight maxSize shardSize) = true) := by
  refine ⟨?_, fun hdvd => ?_⟩
  · rw [shardLast]
    generalize maxSize / shardSize = q
    simp only [beq_iff_eq]
    omega
  rw [totalHeight_eq_div maxSize shardSize hs hdvd]
  refine ⟨rfl, ?_⟩
  simp [onGenerateShardReports, shardLast]

/-- C2 witness: the amended statement at `max_size = 10`, `shard_size = 2`,
interval 4, height 5. -/
theorem c2_last_condition_spot : shardLast 10 2 5 = true :=
  (c2_last_condition_at_floor 10 2 4 5 (by decide)).1.mpr (by decide)

/-! ## Client state, lazy messenger and farm (`Client`, api.py lines 48-231)

The client's mutable fields relevant to the claims are its retry settings
and the lazily created messenger (`self.messenger = None` at construction,
api.py line 61).  The messenger of the missing `messaging` module is
modelled by the two retry fields the client hands it (api.py lines 89-92)
and which `farm` later mutates (api.py line 224).
-/

/-- The retry configuration the client passes to `messaging.Messaging`
(api.py lines 89-92); `retry_limit` is also assigned directly by `farm`
(api.py line 224). -/
structure Messenger where
  retryLimit : Nat
  retryDelay : Nat
deriving DecidableEq

/-- The fields of `Client` the messenger-related claims depend on:
`self.retry_limit`, `self.retry_delay` and the lazy `self.messenger`
(api.py lines 61-64). -/
structure ClientState where
  retryLimit : Nat
  retryDelay : Nat
  messenger : Option Messenger
deriving DecidableEq

/-- `Client._init_messenger` (api.py lines 85-92): create the messenger from
the client's current retry settings only when it is still `None`. -/
def initMessenger (c : ClientState) : ClientState :=
  match c.messenger with
  | some _ => c
  | none => { c with messenger := some ⟨c.retryLimit, c.retryDelay⟩ }

/-- The literal constant assigned by `farm` (api.py line 224):
`self.messenger.retry_limit = 99999999999999999999999999999999999999`. -/
def farmRetryLimit : Nat := 99999999999999999999999999999999999999

/-- Errors of the `exceptions` module that the embedded operations raise. -/
inductive DsError
  | addressAlreadyRegistered
  | invalidAddress
  | invalidHWIF
  | connectionExhausted
deriving DecidableEq

/-- Outcome of the server's register RPC for one address, per the spec's
remote-authority contract: `ok | already-registered | invalid`. -/
inductive RegisterResponse
  | ok
  | alreadyRegistered
  | invalid
deriving DecidableEq

/-- Messenger-level operations observable in a trace. -/
inductive MsgOp
  | register
  | ping
  | height (h : Nat)
deriving DecidableEq

/-- Modelled from the spec: `messaging.Messaging.register` is not under the
given source tree; per the spec it raises `AddressAlreadyRegistered` when the
server reports the address as already registered and `InvalidAddress` on a
rejected address, and returns normally on success. -/
def messengerRegister : RegisterResponse → Except DsError Unit
  | RegisterResponse.ok => Except.ok ()
  | RegisterResponse.alreadyRegistered => Except.error DsError.addressAlreadyRegistered
  | RegisterResponse.invalid => Except.error DsError.invalidAddress

/-- `Client.register` (api.py lines 94-100): one call to
`self.messenger.register(...)`; an exception propagates unchanged, otherwise
the method returns `True`.  The second component is the trace of messenger
operations performed. -/
def clientRegister (resp : RegisterResponse) : Except DsError Bool × List MsgOp :=
  match messengerRegister resp with
  | Except.ok () => (Except.ok true, [MsgOp.register])
  | Except.error e => (Except.error e, [MsgOp.register])

/-- The registration phase of `Client.farm` (api.py lines 226-229):
`try: self.register() except exceptions.AddressAlreadyRegistered: pass`. -/
def farmRegisterPhase (resp : RegisterResponse) : Except DsError Unit × List MsgOp :=
  match clientRegister resp with
  | (Except.ok _, t) => (Except.ok (), t)
  | (Except.error DsError.addressAlreadyRegistered, t) => (Except.ok (), t)
  | (Except.error e, t) => (Except.error e, t)

/-- The three phases `farm` chains. -/
inductive Phase
  | register
  | build
  | poll
deriving DecidableEq

/-- `Client.farm` (api.py lines 216-231) as a state transformer with a phase
trace: `_init_messenger()`, then `self.messenger.retry_limit = <huge>`, then
`register` (absorbing `AddressAlreadyRegistered`), then `build()`, then
`poll()`.  `build` and `poll` are recorded as phase invocations; `poll`
without a limit never returns, so the trace records reaching it. -/
def farmRun (c : ClientState) (resp : RegisterResponse) :
    ClientState × List Phase × Option DsError :=
  let c1 := initMessenger c
  let c2 := { c1 with
    messenger := c1.messenger.map (fun m => { m with retryLimit := farmRetryLimit }) }
  match farmRegisterPhase resp with
  | (Except.ok (), _) => (c2, [Phase.register, Phase.build, Phase.poll], none)
  | (Except.error e, _) => (c2, [Phase.register], some e)

/-- Every standalone operation prepares its messenger through the same
`_init_messenger` call and never touches the retry settings: `register`
(api.py line 96), `config` (line 117), `ping` (line 143), `poll` (via
`ping`), `build` (line 197). -/
def standaloneOpSetup (c : ClientState) : ClientState :=
  initMessenger c

/-- C3: when the server reports the address as already registered, the farm
registration phase absorbs `AddressAlreadyRegistered` and farm proceeds to the
build and poll phases, while a direct `register()` call propagates that error
to its caller; in both modes exactly one register attempt is made. -/
theorem c3_already_registered_absorbed (c : ClientState) :
    farmRegisterPhase RegisterResponse.alreadyRegistered =
      (Except.ok (), [MsgOp.register]) ∧
    (farmRun c RegisterResponse.alreadyRegistered).2 =
      ([Phase.register, Phase.build, Phase.poll], none) ∧
    clientRegister RegisterResponse.alreadyRegistered =
      (Except.error DsError.addressAlreadyRegistered, [MsgOp.register]) ∧
    (∀ resp, (clientRegister resp).2 = [MsgOp.register] ∧
      (farmRegisterPhase resp).2 = [MsgOp.register]) := by
  refine ⟨rfl, rfl, rfl, fun resp => ?_⟩
  cases resp <;> exact ⟨rfl, rfl⟩

/-- C4: `farm` first raises the messenger's retry limit to the huge literal
`farmRetryLimit` and then performs the phases register, build, poll in exactly
that order (build and poll are reached whenever registration does not raise a
fatal error), while each standalone operation merely runs `_init_messenger`,
leaving the messenger at the retry settings configured at construction. -/
theorem c4_farm_retry_limit_and_phase_order (c : ClientState)
    (resp : RegisterResponse) (h : c.messenger = none) :
    (farmRun c resp).1.messenger = some ⟨farmRetryLimit, c.retryDelay⟩ ∧
    (resp ≠ RegisterResponse.invalid →
      (farmRun c resp).2.1 = [Phase.register, Phase.build, Phase.poll]) ∧
    (farmRun c resp).2.1.head? = some Phase.register ∧
    (standaloneOpSetup c).messenger = some ⟨c.retryLimit, c.retryDelay⟩ := by
  cases c with
  | mk rl rd msgr =>
    subst h
    cases resp <;>
      simp [farmRun, initMessenger, standaloneOpSetup, farmRegisterPhase,
        clientRegister, messengerRegister]

/-- C4 witness: a freshly constructed client with retry settings `(3, 5)`
farming against a server that accepts registration. -/
theorem c4_farm_retry_limit_spot :
    (farmRun ⟨3, 5, none⟩ RegisterResponse.ok).1.messenger =
      some ⟨farmRetryLimit, 5⟩ :=
  (c4_farm_retry_limit_and_phase_order ⟨3, 5, none⟩ RegisterResponse.ok rfl).1

/-- C9: `_init_messenger` is idempotent — once the messenger exists a further
call leaves the client unchanged, so the messenger is constructed at most once
and keeps the retry settings captured at its first initialization even if the
client's own settings are changed afterwards. -/
theorem c9_init_messenger_idempotent :
    (∀ c m, c.messenger = some m → initMessenger c = c) ∧
    (∀ c, initMessenger (initMessenger c) = initMessenger c) ∧
    (∀ c L D, initMessenger { initMessenger c with retryLimit := L, retryDelay := D } =
      { initMessenger c with retryLimit := L, retryDelay := D }) := by
  refine ⟨fun c m h => ?_, fun c => ?_, fun c L D => ?_⟩
  · simp [initMessenger, h]
  · cases c with
    | mk rl rd msgr => cases msgr <;> simp [initMessenger]
  · cases c with
    | mk rl rd msgr => cases msgr <;> simp [initMessenger]

/-- C9 witness: a client whose messenger already exists is left unchanged. -/
theorem c9_init_messenger_idempotent_spot :
    initMessenger ⟨3, 5, some ⟨3, 5⟩⟩ = ⟨3, 5, some ⟨3, 5⟩⟩ :=
  c9_init_messenger_idempotent.1 ⟨3, 5, some ⟨3, 5⟩⟩ ⟨3, 5⟩ rfl

/-! ## Polling loop (`Client.poll`, api.py lines 151-177)

Time is modelled as a ghost clock in seconds: `now` is the clock at entry,
pings are treated as instantaneous, and each `time.sleep(int(delay))`
advances the clock by `delay`.  The unbounded `while True` loop runs under
a fuel parameter; the result is the pair of the return value (`some t` for
`return True` at clock `t`, `none` while still running at fuel exhaustion)
and the number of `self.ping()` calls performed within the fuel budget.
-/

/-- `stop_time = None; if limit: stop_time = datetime.now() + timedelta(seconds=int(limit))`
(api.py lines 165-167).  Python's `if limit:` is false both for `None` and
for `0`. -/
def pollStopTime (limit : Option Nat) (now : Nat) : Option Nat :=
  match limit with
  | some l => if l == 0 then none else some (now + l)
  | none => none

/-- The `while True` loop of `poll` (api.py lines 172-177): each iteration
pings, then returns `True` if a stop time is set and the clock has reached it,
and otherwise sleeps `delay` seconds and repeats. -/
def pollLoop (fuel delay : Nat) (stopTime : Option Nat) (now : Nat) :
    Option Nat × Nat :=
  match fuel with
  | 0 => (none, 0)
  | fuel + 1 =>
    match stopTime with
    | some stop =>
      if stop ≤ now then (some now, 1)
      else
        let r := pollLoop fuel delay (some stop) (now + delay)
        (r.1, r.2 + 1)
    | none =>
      let r := pollLoop fuel delay none (now + delay)
      (r.1, r.2 + 1)

/-- `Client.poll` (api.py lines 151-177) for an already-registered client:
compute the stop time, then run the ping loop. -/
def clientPoll (fuel delay : Nat) (limit : Option Nat) (now : Nat) :
    Option Nat × Nat :=
  pollLoop fuel delay (pollStopTime limit now) now

/-- If the loop returns, it returns at or after the configured stop time,
having pinged at least once. -/
lemma pollLoop_returns_after_stop (fuel delay stop now t p : Nat)
    (h : pollLoop fuel delay (some stop) now = (some t, p)) :
    stop ≤ t ∧ 1 ≤ p := by
  induction fuel generalizing now p with
  | zero => simp [pollLoop] at h
  | succ fuel ih =>
    rw [pollLoop] at h
    by_cases hs : stop ≤ now
    · rw [if_pos hs] at h
      simp only [Prod.mk.injEq, Option.some.injEq] at h
      obtain ⟨rfl, rfl⟩ := h
      exact ⟨hs, le_refl 1⟩
    · rw [if_neg hs] at h
      simp only [Prod.mk.injEq] at h
      obtain ⟨h1, h2⟩ := h
      obtain ⟨ha, hb⟩ := ih (now + delay)
        (pollLoop fuel delay (some stop) (now + delay)).2 (Prod.ext h1 rfl)
      omega

/-- Without a stop time, the loop pings once per iteration and never returns. -/
lemma pollLoop_none (fuel delay now : Nat) :
    pollLoop fuel delay none now = (none, fuel) := by
  induction fuel generalizing now with
  | zero => rfl
  | succ fuel ih => simp [pollLoop, ih]

/-- C5: whenever `poll` with a configured positive deadline returns, it returns
`True` at or after the deadline having pinged at least once; in particular
`poll(delay=1, limit=2)` started at any clock `start` returns at clock
`start + 2` after exactly 3 pings (hence at least 2). -/
theorem c5_poll_deadline_termination (fuel delay limit now t p : Nat)
    (hl : 0 < limit)
    (h : clientPoll fuel delay (some limit) now = (some t, p)) :
    (now + limit ≤ t ∧ 1 ≤ p) ∧
    ∀ start : Nat, clientPoll 3 1 (some 2) start = (some (start + 2), 3) := by
  constructor
  · have hz : (limit == 0) = false := by
      simp [Nat.pos_iff_ne_zero.mp hl]
    rw [clientPoll, pollStopTime, hz] at h
    exact pollLoop_returns_after_stop fuel delay (now + limit) now t p
      (by simpa using h)
  · intro start
    have h1 : ¬ (start + 2 ≤ start) := by omega
    have h2 : ¬ (start + 2 ≤ start + 1) := by omega
    have h3 : start + 1 + 1 = start + 2 := by omega
    simp [clientPoll, pollStopTime, pollLoop, h1, h2, h3]

/-- C5 witness: the deadline bound and the concrete instance evaluated on a
run of `poll(delay=1, limit=2)` started at clock 0. -/
theorem c5_poll_deadline_termination_spot :
    (0 + 2 ≤ 2 ∧ 1 ≤ 3) ∧ clientPoll 3 1 (some 2) 5 = (some (5 + 2), 3) :=
  ⟨(c5_poll_deadline_termination 3 1 2 0 2 3 (by decide) (by decide)).1,
   (c5_poll_deadline_termination 3 1 2 0 2 3 (by decide) (by decide)).2 5⟩

/-- C6: with no deadline configured (`limit is None`), the ping loop never
terminates on its own: within any fuel budget the loop performs one ping per
iteration (so another ping always follows) and `poll` never returns. -/
theorem c6_poll_without_limit_never_returns (fuel delay now : Nat) :
    (clientPoll fuel delay none now).1 = none ∧
    (clientPoll fuel delay none now).2 = fuel := by
  simp [clientPoll, pollStopTime, pollLoop_none]

/-- C10: `poll` treats `limit=0` the same as no limit: `if limit:` is false
for `0`, so no stop time is configured and the loop never returns — it does
not stop after the first ping. -/
theorem c10_poll_limit_zero_like_none (fuel delay now : Nat) :
    clientPoll fuel delay (some 0) now = clientPoll fuel delay none now ∧
    (clientPoll fuel delay (some 0) now).1 = none ∧
    (clientPoll fuel delay (some 0) now).2 = fuel := by
  simp [clientPoll, pollStopTime, pollLoop_none]

/-! ## Configuration update (`Client.config`, api.py lines 102-139)

The validators live in the external `btctxstore` collaborator and are taken
as parameters.  The embedding returns the outcome of the call together with
the resulting in-memory configuration and whether `config.save` was called;
a raised exception leaves the configuration at its pre-call value and skips
the save.
-/

/-- The stored configuration fields `config` reads and writes. -/
structure Cfg where
  payoutAddress : String
  wallet : String
deriving DecidableEq

/-- `(x is not None) and (not valid(x))` — the guard shape of the two
validation checks (api.py lines 110-115). -/
def invalidOpt (valid : String → Bool) (x : Option String) : Bool :=
  match x with
  | none => false
  | some a => !(valid a)

/-- `if set_payout_address: self.cfg["payout_address"] = set_payout_address`
(api.py lines 121-123); Python's truthiness makes the empty string a no-op.
Returns the new configuration and whether it was updated. -/
def applyPayout (setPayout : Option String) (cfg : Cfg) : Cfg × Bool :=
  match setPayout with
  | some a => if a == "" then (cfg, false) else ({ cfg with payoutAddress := a }, true)
  | none => (cfg, false)

/-- `if set_wallet: self.cfg["wallet"] = set_wallet` (api.py lines 126-128). -/
def applyWallet (setWallet : Option String) (cfg : Cfg) : Cfg × Bool :=
  match setWallet with
  | some w => if w == "" then (cfg, false) else ({ cfg with wallet := w }, true)
  | none => (cfg, false)

/-- `Client.config` (api.py lines 102-139): validate the payout address, then
the wallet, raising `InvalidAddress` / `InvalidHWIF` respectively before any
mutation; otherwise apply the updates and save iff something was updated.
Result: (outcome, in-memory config after the call, whether `config.save` ran). -/
def clientConfig (validateAddress validateWallet : String → Bool)
    (setWallet setPayout : Option String) (cfg : Cfg) :
    Except DsError Unit × Cfg × Bool :=
  if invalidOpt validateAddress setPayout then
    (Except.error DsError.invalidAddress, cfg, false)
  else if invalidOpt validateWallet setWallet then
    (Except.error DsError.invalidHWIF, cfg, false)
  else
    let p := applyPayout setPayout cfg
    let w := applyWallet setWallet p.1
    (Except.ok (), w.1, p.2 || w.2)

/-- C7, counterexample: when both the payout address and the wallet are
provided and invalid, the call raises `InvalidAddress`, not `InvalidHWIF` —
the claim's second implication fails as stated (the address check runs
first). -/
theorem c7_counterexample_both_invalid :
    clientConfig (fun _ => false) (fun _ => false) (some "w") (some "a")
        ⟨"p", "x"⟩ =
      (Except.error DsError.invalidAddress, ⟨"p", "x"⟩, false) ∧
    DsError.invalidAddress ≠ DsError.invalidHWIF := by
  exact ⟨rfl, by decide⟩

/-- C7 (amended): an invalid provided payout address raises `InvalidAddress`;
an invalid provided wallet raises `InvalidHWIF` provided any supplied payout
address passed validation; in both failure cases the raise happens before any
mutation, so the in-memory configuration is unchanged and no save occurs. -/
theorem c7_config_validation_before_mutation
    (validateAddress validateWallet : String → Bool)
    (setWallet setPayout : Option String) (cfg : Cfg) :
    (∀ a, setPayout = some a → validateAddress a = false →
      clientConfig validateAddress validateWallet setWallet setPayout cfg =
        (Except.error DsError.invalidAddress, cfg, false)) ∧
    (∀ w, setWallet = some w → validateWallet w = false →
      (∀ a, setPayout = some a → validateAddress a = true) →
      clientConfig validateAddress validateWallet setWallet setPayout cfg =
        (Except.error DsError.invalidHWIF, cfg, false)) := by
  constructor
  · intro a ha hv
    subst ha
    simp [clientConfig, invalidOpt, hv]
  · intro w hw hv hp
    subst hw
    have haddr : invalidOpt validateAddress setPayout = false := by
      cases setPayout with
      | none => rfl
      | some a => simp [invalidOpt, hp a rfl]
    have hwall : invalidOpt validateWallet (some w) = true := by
      simp [invalidOpt, hv]
    simp [clientConfig, haddr, hwall]

/-- C7 witness: a rejected payout address on a concrete configuration. -/
theorem c7_config_validation_spot :
    clientConfig (fun _ => false) (fun _ => true) none (some "addr")
        ⟨"p", "x"⟩ =
      (Except.error DsError.invalidAddress, ⟨"p", "x"⟩, false) :=
  (c7_config_validation_before_mutation (fun _ => false) (fun _ => true)
    none (some "addr") ⟨"p", "x"⟩).1 "addr" rfl rfl

/-! ## Retry loop of the messaging layer -/

/-- Modelled from the spec: the `messaging` module is not under the given
source tree; the client hands it `(retry_limit, retry_delay)` (api.py lines
89-92) and per the spec the retry algorithm is: on a retryable failure, wait
`delay` seconds and retry, up to `limit` attempts; exceeding the limit
surfaces `ConnectionExhausted`.  `succeeds i` says whether the `i`-th attempt
succeeds; the result records the outcome, the number of attempts made, and
the total seconds waited between attempts. -/
def retryRun (succeeds : Nat → Bool) (delay : Nat) :
    Nat → Nat → Except DsError Unit × Nat × Nat
  | 0, _ => (Except.error DsError.connectionExhausted, 0, 0)
  | remaining + 1, i =>
    if succeeds i then (Except.ok (), 1, 0)
    else if remaining = 0 then (Except.error DsError.connectionExhausted, 1, 0)
    else
      let r := retryRun succeeds delay remaining (i + 1)
      (r.1, r.2.1 + 1, r.2.2 + delay)

/-- Against an always-failing operation the retry loop exhausts all attempts. -/
lemma retryRun_all_fail (delay : Nat) :
    ∀ limit i, retryRun (fun _ => false) delay limit i =
      (Except.error DsError.connectionExhausted, limit, (limit - 1) * delay) := by
  intro limit
  induction limit with
  | zero => intro i; simp [retryRun]
  | succ n ih =>
    intro i
    cases n with
    | zero => simp [retryRun]
    | succ m =>
      rw [retryRun]
      simp only [Bool.false_eq_true, if_false, Nat.succ_ne_zero, ite_false, ih (i + 1)]
      refine Prod.ext rfl (Prod.ext rfl ?_)
      rw [Nat.succ_sub_one, Nat.succ_sub_one, Nat.succ_mul]

/-- C8: with retry policy `(limit, delay)`, a remote operation that always
fails transiently is attempted exactly `limit` times, with `delay` seconds
waited between consecutive attempts (`(limit-1)*delay` in total), before
`ConnectionExhausted` surfaces; with `limit=3, delay=0` exactly 3 attempts
are made. -/
theorem c8_retry_exhaustion (limit delay : Nat) :
    retryRun (fun _ => false) delay limit 0 =
      (Except.error DsError.connectionExhausted, limit, (limit - 1) * delay) ∧
    retryRun (fun _ => false) 0 3 0 =
      (Except.error DsError.connectionExhausted, 3, 0) := by
  exact ⟨retryRun_all_fail delay limit 0, rfl⟩
